import Mathlib

/-!
Verification development for the tuf-on-a-plane TUF client.

This file gives a shallow embedding, in Lean 4, of the core of the
tuf-on-a-plane repository (a Python client for The Update Framework) and
settles a list of claims about it.  The embedding follows the source files:

- src/tuf_on_a_plane/models/common.py and models/metadata.py (data model),
- src/tuf_on_a_plane/parsers/json.py (destructive JSON parser),
- src/tuf_on_a_plane/download.py (bounded streaming downloader),
- src/tuf_on_a_plane/repository.py (refresh state machine and delegation DFS).

Machine integers are modelled as Nat / Int (the Python code uses unbounded
ints), datetimes as Int instants, byte strings as String (the cryptographic
oracle is abstract), and fallible code returns Except.  Every definition is
executable.
-/

namespace TufOnAPlane

/-! ## Common model types (models/common.py, models/metadata.py)

Version, Length, Threshold are Positive naturals in the source; we model
their values as Nat.  DateTime is modelled as an Int instant (only order is
used).  Hashes is a dict from algorithm name to hex digest, modelled as an
association list in insertion order. -/

abbrev KeyID := String

abbrev Hashes := List (String × String)

/-- Signature schemes; the source represents these as three classes and
compares them by identity, which is equality of this tag. -/
inductive Scheme where
  | ecdsa
  | ed25519
  | rsa
deriving DecidableEq, Repr

structure PublicKey where
  scheme : Scheme
  value : String
deriving DecidableEq, Repr

/-- Signatures maps a keyid to the set of signatures listed for it
(models/metadata.py: Signatures = Dict[KeyID, Set[Signature]]). -/
abbrev Signatures := List (KeyID × List String)

/-- The abstract cryptographic oracle standing for PublicKey.signed
(models/metadata.py lines 95-109; the actual crypto lives in
securesystemslib, outside this repository): given a public key, a
signature, and the canonical bytes, decide whether the signature verifies. -/
abbrev SigOracle := PublicKey → String → String → Bool

/-- ThresholdOfPublicKeys (models/metadata.py lines 117-147): an integer
threshold plus a dict from keyid to public key, modelled as an association
list in insertion order. -/
structure ThresholdOfPublicKeys where
  threshold : Nat
  pubkeys : List (KeyID × PublicKey)
deriving DecidableEq, Repr

/-- Association-list lookup, modelling Python dict.get. -/
def alookup {β : Type} (l : List (String × β)) (k : String) : Option β :=
  match l.find? (fun p => p.1 == k) with
  | some p => some p.2
  | none => none

/-- signatures.get(keyid, set()) in ThresholdOfPublicKeys.verified. -/
def lookupSigs (signatures : Signatures) (kid : KeyID) : List String :=
  match alookup signatures kid with
  | some sigs => sigs
  | none => []

/-- The counter loop of ThresholdOfPublicKeys.verified
(models/metadata.py lines 136-147): iterate over the pubkeys dict; for
each keyid, scan its listed signatures and count the keyid once as soon as
one signature verifies (the break in the inner loop). -/
def signedCount (oracle : SigOracle) (pubkeys : List (KeyID × PublicKey))
    (signatures : Signatures) (data : String) : Nat :=
  match pubkeys with
  | [] => 0
  | (kid, pk) :: rest =>
      (if (lookupSigs signatures kid).any (fun s => oracle pk s data) then 1 else 0)
        + signedCount oracle rest signatures data

/-- ThresholdOfPublicKeys.verified: counter >= threshold. -/
def ThresholdOfPublicKeys.verified (t : ThresholdOfPublicKeys) (oracle : SigOracle)
    (signatures : Signatures) (data : String) : Bool :=
  t.threshold ≤ signedCount oracle t.pubkeys signatures data

/-! ## Glob matching (repository.py line 332 uses fnmatch.fnmatch)

The delegation DFS tests fnmatch(target_relpath, path).  On POSIX,
fnmatch translates the pattern to a regex in which `*` becomes `.*`
(matching any characters, `/` included) and `?` becomes `.`, and matches
the whole name.  Character classes cannot occur in patterns accepted by
the parser (parsers/json.py TARGETS_PATH_PATTERN restricts pattern
characters to word characters, `-`, `*`, `.` and `/`), so the matcher
below covers exactly the patterns the program can reach.  The first
argument is the pattern, the second the name being matched; the star
helper realizes the backtracking `.*`, trying every split point of the
remaining name, `/` included. -/

def globMatchStar (matchRest : List Char → Bool) : List Char → Bool
  | [] => matchRest []
  | c :: s₁ => matchRest (c :: s₁) || globMatchStar matchRest s₁

def globMatch : List Char → List Char → Bool
  | [], s => s.isEmpty
  | p :: ps, s =>
      if p = '*' then globMatchStar (globMatch ps) s
      else
        match s with
        | [] => false
        | c :: s₁ => (p = '?' || p = c) && globMatch ps s₁

/-- Declarative glob semantics in which the star clause may consume an
arbitrary segment s₁ of the name, in particular one containing `/`: this
is the semantics in which `*` DOES cross `/`. -/
inductive GlobMatches : List Char → List Char → Prop where
  | nil : GlobMatches [] []
  | star (ps s₁ s₂ : List Char) : GlobMatches ps s₂ → GlobMatches ('*' :: ps) (s₁ ++ s₂)
  | qmark (ps : List Char) (c : Char) (s : List Char) :
      GlobMatches ps s → GlobMatches ('?' :: ps) (c :: s)
  | lit (p : Char) (ps : List Char) (s : List Char) :
      p ≠ '*' → GlobMatches ps s → GlobMatches (p :: ps) (p :: s)

/-- Modelled from the spec: "Path-pattern semantics: fnmatch-style
globbing where `*` does NOT span `/`" (spec section 9; also section
4.6.5).  This definition follows the spec's words, not the source, and
exists only to be compared against globMatch: its star clause refuses to
consume a `/` character. -/
def specGlobStarNoSlash (matchRest : List Char → Bool) : List Char → Bool
  | [] => matchRest []
  | c :: s₁ => matchRest (c :: s₁) || (!(c = '/') && specGlobStarNoSlash matchRest s₁)

def specGlobMatchNoSlash : List Char → List Char → Bool
  | [], s => s.isEmpty
  | p :: ps, s =>
      if p = '*' then specGlobStarNoSlash (specGlobMatchNoSlash ps) s
      else
        match s with
        | [] => false
        | c :: s₁ => (p = '?' || p = c) && specGlobMatchNoSlash ps s₁

/-! ## JSON values and metadata model (models/metadata.py)

JValue models a decoded JSON tree; objects keep their fields as an
association list in insertion order (Python dicts preserve insertion
order, and dict.popitem removes the most recently inserted item). -/

inductive JValue where
  | str (s : String)
  | num (n : Int)
  | bool (b : Bool)
  | null
  | arr (elems : List JValue)
  | obj (fields : List (String × JValue))

/-- TimeSnap (models/metadata.py lines 160-175): version required, hashes
and length optional, in the dataclass field order. -/
structure TimeSnap where
  version : Nat
  hashes : Option Hashes := none
  length : Option Nat := none
deriving DecidableEq, Repr

/-- TargetFile (models/metadata.py lines 191-195). -/
structure TargetFile where
  hashes : Hashes
  length : Nat
  custom : Option JValue := none

structure Root where
  expires : Int
  version : Nat
  consistentSnapshot : Bool
  root : ThresholdOfPublicKeys
  snapshot : ThresholdOfPublicKeys
  targets : ThresholdOfPublicKeys
  timestamp : ThresholdOfPublicKeys

structure Timestamp where
  expires : Int
  version : Nat
  snapshot : TimeSnap

structure Snapshot where
  expires : Int
  version : Nat
  targets : List (String × TimeSnap)

structure Delegation where
  role : ThresholdOfPublicKeys
  paths : List String
  terminating : Bool := false

structure Targets where
  expires : Int
  version : Nat
  targets : List (String × TargetFile)
  delegations : List (String × Delegation)

/-! ## The destructive JSON parser fragment (parsers/json.py)

The parser reads object fields with dict.popitem, which removes the most
recently inserted (with sorted input: lexicographically last) field.
Errors of the Python code (KeyError, ValueError, TypeError) are modelled
by the Err constructors below. -/

inductive Err where
  | keyError
  | valueError
  | typeError
  | missingFile
  | downloadNotFound
  | httpError
  | arbitrarySoftwareAttack
  | endlessDataAttack
  | freezeAttack
  | mixAndMatchAttack
  | rollbackAttack
  | slowRetrievalAttack
  | noConsistentSnapshots
  | targetNotFound
  | inconsistentTarget
  | modelFuel
deriving DecidableEq, Repr

/-- dict.popitem on an insertion-ordered field list: returns the last
inserted field and the remaining fields, or none when the dict is empty
(where Python raises KeyError). -/
def popitem : List (String × JValue) →
    Option ((String × JValue) × List (String × JValue))
  | [] => none
  | kv :: rest =>
      match popitem rest with
      | none => some (kv, [])
      | some (last, rest₁) => some (last, kv :: rest₁)

/-- Version(value) / Length(value) on a JSON number (models/common.py
Positive: round(float(value)), rejecting values that are not positive).
Metadata versions and lengths are JSON integers; we model the numeric
case, the only one the claims exercise. -/
def parsePositive (v : JValue) : Except Err Nat :=
  match v with
  | .num n => if n ≤ 0 then .error .valueError else .ok n.toNat
  | _ => .error .valueError

/-- hashes(_hashes) (parsers/json.py lines 298-306): require a dict whose
keys and values are strings and return it unchanged. -/
def parseHashPairs : List (String × JValue) → Except Err Hashes
  | [] => .ok []
  | (k, .str s) :: rest =>
      match parseHashPairs rest with
      | .ok hs => .ok ((k, s) :: hs)
      | .error e => .error e
  | (_, _) :: _ => .error .typeError

def parseHashes (v : JValue) : Except Err Hashes :=
  match v with
  | .obj kvs => parseHashPairs kvs
  | _ => .error .typeError

/-- The per-entry body of meta(_meta) (parsers/json.py lines 318-340):
pop "version" (KeyError on an empty dict is not caught); then try to pop
"length", treating an exhausted dict as an absent length; then try to pop
"hashes", treating an exhausted dict as absent hashes, and only in the
branch where a "hashes" field was popped check that the dict is now
empty. -/
def parseTimeSnap (v : JValue) : Except Err TimeSnap :=
  match v with
  | .obj kvs =>
      match popitem kvs with
      | none => .error .keyError
      | some ((k, vv), rest) =>
          if k ≠ "version" then .error .valueError else
          match parsePositive vv with
          | .error e => .error e
          | .ok version =>
              match popitem rest with
              | none => .ok { version := version }
              | some ((k₂, lv), rest₂) =>
                  if k₂ ≠ "length" then .error .valueError else
                  match parsePositive lv with
                  | .error e => .error e
                  | .ok length =>
                      match popitem rest₂ with
                      | none => .ok { version := version, length := some length }
                      | some ((k₃, hv), rest₃) =>
                          if k₃ ≠ "hashes" then .error .valueError else
                          match parseHashes hv with
                          | .error e => .error e
                          | .ok hs =>
                              if rest₃.isEmpty then
                                .ok { version := version, hashes := some hs,
                                      length := some length }
                              else .error .valueError
  | _ => .error .typeError

/-- target_file(_target_file) (parsers/json.py lines 385-404): pop
"length", pop "hashes", then try to pop one more field for the custom
slot; an exhausted dict means custom is absent.  Note the source checks
that the popped custom value is a dict and that the dict is then empty,
but never checks the popped key's name. -/
def parseTargetFile (v : JValue) : Except Err TargetFile :=
  match v with
  | .obj kvs =>
      match popitem kvs with
      | none => .error .keyError
      | some ((k, lv), rest) =>
          if k ≠ "length" then .error .valueError else
          match parsePositive lv with
          | .error e => .error e
          | .ok length =>
              match popitem rest with
              | none => .error .keyError
              | some ((k₂, hv), rest₂) =>
                  if k₂ ≠ "hashes" then .error .valueError else
                  match parseHashes hv with
                  | .error e => .error e
                  | .ok hs =>
                      match popitem rest₂ with
                      | none => .ok { hashes := hs, length := length }
                      | some ((_, cv), rest₃) =>
                          match cv with
                          | .obj fields =>
                              if rest₃.isEmpty then
                                .ok { hashes := hs, length := length,
                                      custom := some (.obj fields) }
                              else .error .valueError
                          | _ => .error .typeError
  | _ => .error .typeError

/-! ## The bounded streaming downloader (download.py, HTTPXDownloaderMixIn)

A chunk records response.num_bytes_downloaded after the chunk arrived,
the chunk's payload length (len(chunk); it can differ from the raw bytes
received, e.g. under transfer compression), and the instantaneous chunk
speed in bytes/second.  The source computes the speed from wall-clock
floats; we carry it as an abstract observation on the chunk. -/

structure Chunk where
  numBytesDownloaded : Nat
  data : Nat
  speed : Nat

structure HResponse where
  status : Nat
  contentLength : Option Nat
  chunks : List Chunk

/-- HTTPXDownloaderMixIn.__chunk (download.py lines 74-106): check the
raw byte count against the bound, check the chunk speed when bytes
advanced, then account the written bytes, re-checking both length bounds,
and append the chunk to the temp file.  Returns the new
(prev_downloaded, written_bytes) accumulator. -/
def chunkStep (threshold maxLength : Nat) (prevDownloaded written : Nat)
    (ch : Chunk) : Except Err (Nat × Nat) :=
  if maxLength < ch.numBytesDownloaded then .error .endlessDataAttack
  else
    let downloadedLength := ch.numBytesDownloaded - prevDownloaded
    if 0 < downloadedLength ∧ ch.speed < threshold then .error .slowRetrievalAttack
    else if 0 < ch.data then
      let written₁ := written + ch.data
      if written₁ < ch.numBytesDownloaded then .error .endlessDataAttack
      else if maxLength < written₁ then .error .endlessDataAttack
      else .ok (ch.numBytesDownloaded, written₁)
    else .ok (ch.numBytesDownloaded, written)

/-- The response.iter_bytes() loop of download (download.py lines
120-132), threading the (prev_downloaded, written_bytes) accumulator. -/
def runChunks (threshold maxLength : Nat) :
    Nat → Nat → List Chunk → Except Err (Nat × Nat)
  | prev, written, [] => .ok (prev, written)
  | prev, written, ch :: rest =>
      match chunkStep threshold maxLength prev written ch with
      | .error e => .error e
      | .ok (prev₁, written₁) => runChunks threshold maxLength prev₁ written₁ rest

/-- HTTPXDownloaderMixIn.download (download.py lines 108-137): map HTTP
403/404 to DownloadNotFoundError and other error statuses to a fatal
transport error; compare the advertised Content-Length (defaulting to the
bound itself when the header is absent) against the bound before touching
the body; then stream the chunks.  The result is the final
(prev_downloaded, written_bytes) pair of the temp file. -/
def download (threshold maxLength : Nat) (r : HResponse) : Except Err (Nat × Nat) :=
  if r.status = 403 ∨ r.status = 404 then .error .downloadNotFound
  else if 400 ≤ r.status then .error .httpError
  else
    let alleged := r.contentLength.getD maxLength
    if maxLength < alleged then .error .endlessDataAttack
    else runChunks threshold maxLength 0 0 r.chunks

/-! ## Repository model (repository.py)

A metadata file on disk or on the wire is modelled by MFile: its byte
size, its observed digest dict (what readers.check_hashes computes for
("sha256", "sha512")), and its parsed Metadata envelope (canonical bytes,
signatures, and the role payload).  Target files carry size and digests
only.  The remote repository and the crypto oracle live in Env; the
on-disk metadata and targets caches live in Cache.  Downloading a
metadata file at a length bound either fails with DownloadNotFoundError
(modelled none) or streams the file, raising EndlessDataAttack when the
file exceeds the bound. -/

namespace Config

def MAX_PREORDER_DFS_VISITS : Nat := 2 ^ 5

def MAX_ROOT_ROTATIONS : Nat := 2 ^ 5

def MAX_ROOT_LENGTH : Nat := 2 ^ 15

def MAX_SNAPSHOT_LENGTH : Nat := 2 ^ 17

def MAX_TARGETS_LENGTH : Nat := 2 ^ 21

def MAX_TIMESTAMP_LENGTH : Nat := 2 ^ 11

end Config

structure MFile (α : Type) where
  size : Nat
  digests : Hashes
  canonical : String
  signatures : Signatures
  signed : α

structure TFile where
  size : Nat
  digests : Hashes

structure Cache where
  root : Option (MFile Root)
  timestamp : Option (MFile Timestamp)
  snapshot : Option (MFile Snapshot)
  targetsMeta : List (String × MFile Targets)
  targetFiles : List (String × TFile)

structure Trusted where
  root : Root
  timestamp : Timestamp
  snapshot : Snapshot

structure Env where
  sigOk : SigOracle
  now : Int
  remoteRoot : Nat → Option (MFile Root)
  remoteTimestamp : Option (MFile Timestamp)
  remoteSnapshot : Nat → Option (MFile Snapshot)
  remoteTargets : String → Nat → Option (MFile Targets)
  remoteTarget : String → String → Option TFile

/-- Dict assignment d[k] = v on an association list (overwrite or append);
models mv_file into a cache location. -/
def aupdate {β : Type} (l : List (String × β)) (k : String) (v : β) :
    List (String × β) :=
  if (l.find? (fun p => p.1 == k)).isSome then
    l.map (fun p => if p.1 == k then (k, v) else p)
  else l ++ [(k, v)]

/-- readers.py check_length: observed file size must not exceed the bound. -/
def checkLengthOk (size bound : Nat) : Bool :=
  size ≤ bound

/-- Repository.__check_hashes composed with readers.py check_hashes:
skipped when expected is None or an empty dict (Python truthiness of
`if expected`), otherwise the observed digest dict must equal expected. -/
def checkHashesOk (digests : Hashes) (expected : Option Hashes) : Bool :=
  match expected with
  | none => true
  | some h => if h.isEmpty then true else digests == h

/-- ThresholdOfPublicKeys.__eq__ (models/metadata.py lines 124-134):
equal thresholds, equal keyid sets, and equal public keys per keyid. -/
def ThresholdOfPublicKeys.pyEq (a b : ThresholdOfPublicKeys) : Bool :=
  a.threshold == b.threshold
    && (a.pubkeys.map Prod.fst).all (fun k => (b.pubkeys.map Prod.fst).contains k)
    && (b.pubkeys.map Prod.fst).all (fun k => (a.pubkeys.map Prod.fst).contains k)
    && a.pubkeys.all (fun kp =>
        match alookup b.pubkeys kp.1 with
        | some pk => pk == kp.2
        | none => false)

/-- The `timesnap.length or MAX` idiom of repository.py lines 273 and
365: a present length (a Positive, hence truthy) is used as the bound
as-is; only an absent length falls back to the global ceiling. -/
def metadataLengthBound (l : Option Nat) (maxLen : Nat) : Nat :=
  l.getD maxLen

/-- Repository.__load_root (repository.py lines 132-155): parse the
cached root, verify its self-signatures, and reject
non-consistent-snapshot repositories. -/
def loadRoot (env : Env) (c : Cache) : Except Err Root :=
  match c.root with
  | none => .error .missingFile
  | some f =>
      if ¬ f.signed.root.verified env.sigOk f.signatures f.canonical then
        .error .arbitrarySoftwareAttack
      else if ¬ f.signed.consistentSnapshot then .error .noConsistentSnapshots
      else .ok f.signed

/-- One iteration of the root-rotation loop (repository.py lines
166-196), for version number n: download {n}.root.json (ok none models
the DownloadNotFoundError that breaks the loop), check the length bound,
check signatures against the currently trusted root's root role AND
against the new file's own root role over the same canonical bytes, and
check the version number. -/
def updateRootStep (env : Env) (currRoot : Root) (n : Nat) :
    Except Err (Option (MFile Root)) :=
  match env.remoteRoot n with
  | none => .ok none
  | some f =>
      if Config.MAX_ROOT_LENGTH < f.size then .error .endlessDataAttack
      else if ¬ checkLengthOk f.size Config.MAX_ROOT_LENGTH then
        .error .endlessDataAttack
      else if ¬ currRoot.root.verified env.sigOk f.signatures f.canonical then
        .error .arbitrarySoftwareAttack
      else if ¬ f.signed.root.verified env.sigOk f.signatures f.canonical then
        .error .arbitrarySoftwareAttack
      else if f.signed.version ≠ n then .error .rollbackAttack
      else .ok (some f)

/-- The root-rotation loop (repository.py lines 165-196): up to fuel
iterations; n is the version of the current trusted root, each iteration
tries n+1; carries the last successfully downloaded file (the tmp_file
variable). -/
def updateRootLoop (env : Env) :
    Nat → Root → Nat → Option (MFile Root) → Except Err (Root × Option (MFile Root))
  | 0, curr, _, tmp => .ok (curr, tmp)
  | fuel + 1, curr, n, tmp =>
      match updateRootStep env curr (n + 1) with
      | .error e => .error e
      | .ok none => .ok (curr, tmp)
      | .ok (some f) => updateRootLoop env fuel f.signed (n + 1) (some f)

/-- Repository.__update_root (repository.py lines 157-227): run the
rotation loop, check the final root for a freeze attack, and if the root
advanced, re-check consistent_snapshot, delete cached snapshot/timestamp
metadata when the timestamp or snapshot role keys changed, persist the
new root, and advance the trusted root. -/
def updateRoot (env : Env) (c : Cache) (prevRoot : Root) :
    Except Err (Cache × Root) :=
  match updateRootLoop env Config.MAX_ROOT_ROTATIONS prevRoot prevRoot.version none with
  | .error e => .error e
  | .ok (curr, tmp) =>
      if curr.expires ≤ env.now then .error .freezeAttack
      else if prevRoot.version < curr.version then
        if ¬ curr.consistentSnapshot then .error .noConsistentSnapshots
        else
          let c₁ :=
            if ¬ prevRoot.timestamp.pyEq curr.timestamp
                || ¬ prevRoot.snapshot.pyEq curr.snapshot then
              { c with snapshot := none, timestamp := none }
            else c
          match tmp with
          | some f => .ok ({ c₁ with root := some f }, curr)
          | none => .error .missingFile
      else .ok (c, prevRoot)

/-- Repository.__update_timestamp (repository.py lines 235-263):
timestamp.json is always fetched fresh at bound MAX_TIMESTAMP_LENGTH;
verify against the trusted root's timestamp role; rollback-check against
the previously cached timestamp (both the timestamp version and its
snapshot TimeSnap version); freeze-check; persist. -/
def updateTimestamp (env : Env) (c : Cache) (root : Root) :
    Except Err (Cache × Timestamp) :=
  match env.remoteTimestamp with
  | none => .error .downloadNotFound
  | some f =>
      if Config.MAX_TIMESTAMP_LENGTH < f.size then .error .endlessDataAttack
      else if ¬ checkLengthOk f.size Config.MAX_TIMESTAMP_LENGTH then
        .error .endlessDataAttack
      else if ¬ root.timestamp.verified env.sigOk f.signatures f.canonical then
        .error .arbitrarySoftwareAttack
      else
        let rollbackBad :=
          match c.timestamp with
          | some pf =>
              f.signed.version < pf.signed.version
                || f.signed.snapshot.version < pf.signed.snapshot.version
          | none => false
        if rollbackBad then .error .rollbackAttack
        else if f.signed.expires ≤ env.now then .error .freezeAttack
        else .ok ({ c with timestamp := some f }, f.signed)

/-- The snapshot rollback scan (repository.py lines 302-308): some
filename of the previous snapshot is missing from the new snapshot, or
its TimeSnap version decreased. -/
def snapshotRollbackOffender (prevTargets currTargets : List (String × TimeSnap)) :
    Bool :=
  prevTargets.any (fun p =>
    match alookup currTargets p.1 with
    | none => true
    | some cts => cts.version < p.2.version)

/-- Repository.__update_snapshot (repository.py lines 265-316): reuse the
cached snapshot unless it is absent or older than the timestamp's
snapshot reference, else download {version}.snapshot.json at the
`length or MAX_SNAPSHOT_LENGTH` bound; then length check, hash check
against the reference, signature check against the trusted root's
snapshot role, version-equality check against the reference, rollback
scan against the previous cached snapshot, freeze check, and persistence
(only when freshly downloaded). -/
def updateSnapshot (env : Env) (c : Cache) (root : Root) (ts : Timestamp) :
    Except Err (Cache × Snapshot) :=
  let prev := c.snapshot
  let obsolete :=
    match prev with
    | none => true
    | some pf => pf.signed.version < ts.snapshot.version
  let bound := metadataLengthBound ts.snapshot.length Config.MAX_SNAPSHOT_LENGTH
  let fileE : Except Err (MFile Snapshot) :=
    if obsolete then
      match env.remoteSnapshot ts.snapshot.version with
      | none => .error .downloadNotFound
      | some f => if bound < f.size then .error .endlessDataAttack else .ok f
    else
      match prev with
      | some pf => .ok pf
      | none => .error .missingFile
  match fileE with
  | .error e => .error e
  | .ok f =>
      if ¬ checkLengthOk f.size bound then .error .endlessDataAttack
      else if ¬ checkHashesOk f.digests ts.snapshot.hashes then
        .error .arbitrarySoftwareAttack
      else if ¬ root.snapshot.verified env.sigOk f.signatures f.canonical then
        .error .arbitrarySoftwareAttack
      else if f.signed.version ≠ ts.snapshot.version then .error .mixAndMatchAttack
      else
        let rollbackBad :=
          match prev with
          | some pf => snapshotRollbackOffender pf.signed.targets f.signed.targets
          | none => false
        if rollbackBad then .error .rollbackAttack
        else if f.signed.expires ≤ env.now then .error .freezeAttack
        else .ok (if obsolete then { c with snapshot := some f } else c, f.signed)

/-- Result of the delegation loop inside Repository.__preorder_dfs:
done models a `return target_file` out of the whole DFS call, next models
falling through to the following delegation. -/
inductive DfsStep where
  | done (tf : Option TargetFile) (visited : List String) (c : Cache)
  | next (visited : List String) (c : Cache)

/-- The type of the recursive self.__update_targets call as the DFS sees
it: visited set, counter, rolename, delegated role threshold, target
relpath, plus the threaded metadata cache. -/
abbrev UpdateTargetsFn :=
  List String → Nat → String → ThresholdOfPublicKeys → String → Cache →
    Except Err (Option TargetFile × List String × Cache)

/-- The inner path loop of Repository.__preorder_dfs (repository.py
lines 331-341): on each pattern that fnmatch-matches the target path,
call self.__update_targets on the delegated role with counter + 1;
return out of the whole DFS when that call produced a hit or the
delegation is terminating. -/
def dfsPathsGo (update : UpdateTargetsFn) (rolename : String) (d : Delegation)
    (relpath : String) : List String → List String → Nat → Cache →
    Except Err DfsStep
  | [], visited, _, c => .ok (.next visited c)
  | path :: more, visited, counter, c =>
      if globMatch path.data relpath.data then
        match update visited (counter + 1) rolename d.role relpath c with
        | .error e => .error e
        | .ok (tf, visited₁, c₁) =>
            if tf.isSome || d.terminating then .ok (.done tf visited₁ c₁)
            else dfsPathsGo update rolename d relpath more visited₁ counter c₁
      else dfsPathsGo update rolename d relpath more visited counter c

/-- The outer delegation loop of Repository.__preorder_dfs (repository.py
lines 329-342): skip delegations whose role was already visited, else
scan their path patterns. -/
def dfsDelegationsGo (update : UpdateTargetsFn) (relpath : String) :
    List (String × Delegation) → List String → Nat → Cache → Except Err DfsStep
  | [], visited, _, c => .ok (.next visited c)
  | (rolename, d) :: rest, visited, counter, c =>
      if visited.contains rolename then
        dfsDelegationsGo update relpath rest visited counter c
      else
        match dfsPathsGo update rolename d relpath d.paths visited counter c with
        | .error e => .error e
        | .ok (.done tf visited₁ c₁) => .ok (.done tf visited₁ c₁)
        | .ok (.next visited₁ c₁) =>
            dfsDelegationsGo update relpath rest visited₁ counter c₁

/-- Repository.__preorder_dfs (repository.py lines 318-342): return the
TargetFile listed for target_relpath if present, else iterate the
delegations in declared order. -/
def preorderDfsGo (update : UpdateTargetsFn) (tgts : Targets) (relpath : String)
    (visited : List String) (counter : Nat) (c : Cache) :
    Except Err (Option TargetFile × List String × Cache) :=
  match alookup tgts.targets relpath with
  | some tf => .ok (some tf, visited, c)
  | none =>
      match dfsDelegationsGo update relpath tgts.delegations visited counter c with
      | .error e => .error e
      | .ok (.done tf visited₁ c₁) => .ok (tf, visited₁, c₁)
      | .ok (.next visited₁ c₁) => .ok (none, visited₁, c₁)

/-- Repository.__update_targets (repository.py lines 344-401): guard on
visited roles and the DFS visit counter, look the role up in the trusted
snapshot (MixAndMatchAttack when absent), reuse the cached role file
unless absent or older than the snapshot's reference, else download at
the `length or MAX_TARGETS_LENGTH` bound, run the length/hash/signature/
version/freeze checks, persist when freshly downloaded, and run the
pre-order DFS on the parsed Targets.  The visited set is mutated in
place in Python and is therefore threaded through the result.  The fuel
argument only serves Lean's termination: the counter guard bounds the
nesting depth of __update_targets by MAX_PREORDER_DFS_VISITS + 1, so
with any larger fuel the fuel-exhaustion branch is unreachable. -/
def updateTargetsF (env : Env) (root : Root) (snap : Snapshot) :
    Nat → UpdateTargetsFn
  | 0 => fun _ _ _ _ _ _ => .error .modelFuel
  | fuel₁ + 1 => fun visited counter rolename role relpath c =>
      if visited.contains rolename || Config.MAX_PREORDER_DFS_VISITS < counter then
        .ok (none, visited, c)
      else
        let visited₁ := rolename :: visited
        match alookup snap.targets (rolename ++ ".json") with
        | none => .error .mixAndMatchAttack
        | some timesnap =>
            let prev := alookup c.targetsMeta rolename
            let obsolete :=
              match prev with
              | none => true
              | some pf => pf.signed.version < timesnap.version
            let bound := metadataLengthBound timesnap.length Config.MAX_TARGETS_LENGTH
            let fileE : Except Err (MFile Targets) :=
              if obsolete then
                match env.remoteTargets rolename timesnap.version with
                | none => .error .downloadNotFound
                | some f => if bound < f.size then .error .endlessDataAttack else .ok f
              else
                match prev with
                | some pf => .ok pf
                | none => .error .missingFile
            match fileE with
            | .error e => .error e
            | .ok f =>
                if ¬ checkLengthOk f.size bound then .error .endlessDataAttack
                else if ¬ checkHashesOk f.digests timesnap.hashes then
                  .error .arbitrarySoftwareAttack
                else if ¬ role.verified env.sigOk f.signatures f.canonical then
                  .error .arbitrarySoftwareAttack
                else if f.signed.version ≠ timesnap.version then
                  .error .mixAndMatchAttack
                else if f.signed.expires ≤ env.now then .error .freezeAttack
                else
                  let c₁ :=
                    if obsolete then
                      { c with targetsMeta := aupdate c.targetsMeta rolename f }
                    else c
                  preorderDfsGo (updateTargetsF env root snap fuel₁) f.signed
                    relpath visited₁ counter c₁

/-- Fuel passed to the DFS at its entry point: one above the depth bound
the counter guard enforces. -/
def dfsFuel : Nat := Config.MAX_PREORDER_DFS_VISITS + 2

structure Target where
  path : String
  target : TargetFile

/-- Repository.__get_target (repository.py lines 403-415): try every
consistent-snapshot name {hexdigest}.{basename} in hash declaration
order; DownloadNotFoundError falls through to the next hash, every other
download failure propagates; all hashes exhausted means
InconsistentTargetError. -/
def getTargetLoop (env : Env) (tfLength : Nat) (relpath : String) :
    List (String × String) → Except Err TFile
  | [] => .error .inconsistentTarget
  | (_, h) :: rest =>
      match env.remoteTarget relpath h with
      | none => getTargetLoop env tfLength relpath rest
      | some df => if tfLength < df.size then .error .endlessDataAttack else .ok df

/-- Repository.get (repository.py lines 418-454): run the targets update
and DFS from the top-level targets role with a fresh visited set and
counter 1, then fetch and verify the target (reusing a cached copy when
present).  All failures, including attack errors raised during the
targets update, surface as TargetNotFoundError, as does the case of no
targets metadata about the path.  Note get does NOT re-run the refresh
pipeline: the trusted root and snapshot come from the session state
established at construction time. -/
def get (env : Env) (c : Cache) (t : Trusted) (relpath : String) :
    Except Err (Target × Cache) :=
  match updateTargetsF env t.root t.snapshot dfsFuel [] 1 "targets" t.root.targets relpath c with
  | .error _ => .error .targetNotFound
  | .ok (none, _, _) => .error .targetNotFound
  | .ok (some tf, _, c₁) =>
      match alookup c₁.targetFiles relpath with
      | some df =>
          if ¬ checkLengthOk df.size tf.length then .error .targetNotFound
          else if ¬ checkHashesOk df.digests (some tf.hashes) then
            .error .targetNotFound
          else .ok ({ path := relpath, target := tf }, c₁)
      | none =>
          match getTargetLoop env tf.length relpath tf.hashes with
          | .error _ => .error .targetNotFound
          | .ok df =>
              if ¬ checkLengthOk df.size tf.length then .error .targetNotFound
              else if ¬ checkHashesOk df.digests (some tf.hashes) then
                .error .targetNotFound
              else .ok ({ path := relpath, target := tf },
                        { c₁ with targetFiles := aupdate c₁.targetFiles relpath df })

/-- Repository.__refresh (repository.py lines 120-131): load the trusted
root, update root, update timestamp, update snapshot; any failure aborts
the refresh with no trusted state established. -/
def refresh (env : Env) (c : Cache) : Except Err (Cache × Trusted) :=
  match loadRoot env c with
  | .error e => .error e
  | .ok root₀ =>
      match updateRoot env c root₀ with
      | .error e => .error e
      | .ok (c₁, root) =>
          match updateTimestamp env c₁ root with
          | .error e => .error e
          | .ok (c₂, ts) =>
              match updateSnapshot env c₂ root ts with
              | .error e => .error e
              | .ok (c₃, snap) =>
                  .ok (c₃, { root := root, timestamp := ts, snapshot := snap })

/-- Modelled from the spec: "the second call re-runs refresh from the
beginning, preserving all invariants" (spec section 5) — a get that
first re-runs the whole refresh pipeline against the current remote
state and then performs the targets lookup with the refreshed trusted
state.  This definition follows the spec's words and exists only to be
compared with get above. -/
def specGetWithRefresh (env : Env) (c : Cache) (relpath : String) :
    Except Err (Target × Cache) :=
  match refresh env c with
  | .error _ => .error .targetNotFound
  | .ok (c₁, t) => get env c₁ t relpath

/-! ## Concrete scenarios

Small concrete repositories used to evaluate the model on explicit
inputs.  thOne is a 1-of-1 threshold; envBase is an empty remote
repository with an always-accepting signature oracle and clock 0; all
concrete metadata expires at instant 100. -/

def thOne : ThresholdOfPublicKeys :=
  { threshold := 1, pubkeys := [("k1", { scheme := .ed25519, value := "pub1" })] }

def sigsOne : Signatures := [("k1", ["s1"])]

def envBase : Env :=
  { sigOk := fun _ _ _ => true
    now := 0
    remoteRoot := fun _ => none
    remoteTimestamp := none
    remoteSnapshot := fun _ => none
    remoteTargets := fun _ _ => none
    remoteTarget := fun _ _ => none }

def rootOne : Root :=
  { expires := 100, version := 1, consistentSnapshot := true
    root := thOne, snapshot := thOne, targets := thOne, timestamp := thOne }

def mfRootOne : MFile Root :=
  { size := 10, digests := [], canonical := "cr", signatures := sigsOne
    signed := rootOne }

def cacheEmpty : Cache :=
  { root := none, timestamp := none, snapshot := none, targetsMeta := []
    targetFiles := [] }

def tsOne : Timestamp :=
  { expires := 100, version := 1, snapshot := { version := 1 } }

/-- Scenario for the delegation DFS: the top-level targets role lists no
target directly and delegates the pattern pkgs/* to role x, which lists
pkgs/a/b.txt. -/
def tfDelegated : TargetFile :=
  { hashes := [("sha256", "aa"), ("sha512", "bb")], length := 4 }

def topTargetsDeleg : Targets :=
  { expires := 100, version := 1, targets := []
    delegations := [("x", { role := thOne, paths := ["pkgs/*"], terminating := false })] }

def subTargetsDeleg : Targets :=
  { expires := 100, version := 1, targets := [("pkgs/a/b.txt", tfDelegated)]
    delegations := [] }

def mfTopTargets : MFile Targets :=
  { size := 10, digests := [], canonical := "ct", signatures := sigsOne
    signed := topTargetsDeleg }

def mfSubTargets : MFile Targets :=
  { size := 10, digests := [], canonical := "cx", signatures := sigsOne
    signed := subTargetsDeleg }

def snapDeleg : Snapshot :=
  { expires := 100, version := 1
    targets := [("targets.json", { version := 1 }), ("x.json", { version := 1 })] }

def envDeleg : Env :=
  { envBase with
    remoteTargets := fun r v =>
      if r = "targets" ∧ v = 1 then some mfTopTargets
      else if r = "x" ∧ v = 1 then some mfSubTargets
      else none }

/-- Projects the TargetFile out of a DFS result. -/
def dfsResultTarget (r : Except Err (Option TargetFile × List String × Cache)) :
    Option TargetFile :=
  match r with
  | .ok (tf, _, _) => tf
  | .error _ => none

/-- Scenario for the snapshot length bound: the timestamp's snapshot
reference declares a length 1000 bytes above the global
MAX_SNAPSHOT_LENGTH ceiling, and the served snapshot file is 500 bytes
above the ceiling (within the declared length). -/
def snapPlain : Snapshot :=
  { expires := 100, version := 1, targets := [("targets.json", { version := 1 })] }

def mfSnapBig : MFile Snapshot :=
  { size := Config.MAX_SNAPSHOT_LENGTH + 500, digests := [], canonical := "cs"
    signatures := sigsOne, signed := snapPlain }

def tsBigLen : Timestamp :=
  { expires := 100, version := 1
    snapshot := { version := 1, length := some (Config.MAX_SNAPSHOT_LENGTH + 1000) } }

def envSnapBig : Env :=
  { envBase with remoteSnapshot := fun v => if v = 1 then some mfSnapBig else none }

/-- Scenario for the second get call: the delegation repository also
serves the target file itself, while the remote timestamp has
disappeared, so that a fresh refresh against this remote state fails. -/
def tFileDeleg : TFile :=
  { size := 4, digests := [("sha256", "aa"), ("sha512", "bb")] }

def envSecondGet : Env :=
  { envDeleg with
    remoteTarget := fun p h =>
      if p = "pkgs/a/b.txt" ∧ h = "aa" then some tFileDeleg else none }

def cacheSecondGet : Cache :=
  { cacheEmpty with root := some mfRootOne }


def trustedSecondGet : Trusted :=
  { root := rootOne, timestamp := tsOne, snapshot := snapDeleg }

/-- Scenario for cross-signed root verification: version 2 of the root
is served but the oracle rejects every signature. -/
def rootTwo : Root :=
  { rootOne with version := 2 }

def mfRootTwo : MFile Root :=
  { size := 10, digests := [], canonical := "cr2", signatures := sigsOne
    signed := rootTwo }

def envRootReject : Env :=
  { envBase with
    sigOk := fun _ _ _ => false
    remoteRoot := fun n => if n = 2 then some mfRootTwo else none }

def mfTimestampOne : MFile Timestamp :=
  { size := 10, digests := [], canonical := "cti", signatures := sigsOne
    signed := tsOne }

/-- A remote state differing from envSecondGet in the root, timestamp and
snapshot it serves but not in targets metadata or target files. -/
def envSecondGetB : Env :=
  { envSecondGet with
    remoteTimestamp := some mfTimestampOne
    remoteRoot := fun n => if n = 2 then some mfRootTwo else none
    remoteSnapshot := fun v => if v = 1 then some mfSnapBig else none }

/-- Scenario for the snapshot rollback scan: the cached snapshot v1
lists a.json at version 5; the served snapshot v2 no longer lists
a.json. -/
def prevSnapRoll : Snapshot :=
  { expires := 100, version := 1
    targets := [("targets.json", { version := 1 }), ("a.json", { version := 5 })] }

def mfPrevSnapRoll : MFile Snapshot :=
  { size := 10, digests := [], canonical := "cp", signatures := sigsOne
    signed := prevSnapRoll }

def newSnapRoll : Snapshot :=
  { expires := 100, version := 2, targets := [("targets.json", { version := 1 })] }

def mfNewSnapRoll : MFile Snapshot :=
  { size := 10, digests := [], canonical := "cn", signatures := sigsOne
    signed := newSnapRoll }

def tsTwo : Timestamp :=
  { expires := 100, version := 2, snapshot := { version := 2 } }

def cacheRoll : Cache :=
  { cacheEmpty with snapshot := some mfPrevSnapRoll }

def envRoll : Env :=
  { envBase with remoteSnapshot := fun v => if v = 2 then some mfNewSnapRoll else none }

/-- Scenario for threshold verification: a 1-of-2 threshold, an oracle
accepting exactly the signature "good", and a signatures dict listing a
bad and a good signature under the first keyid only. -/
def thTwoKeys : ThresholdOfPublicKeys :=
  { threshold := 1
    pubkeys := [("ka", { scheme := .ed25519, value := "pa" }),
                ("kb", { scheme := .ed25519, value := "pb" })] }

def oracleGood : SigOracle := fun _ s _ => s == "good"

def sigsGoodBad : Signatures := [("ka", ["bad", "good"])]

/-- Scenario for a cached snapshot newer than the timestamp reference:
the cached snapshot has version 3 while the timestamp advertises
version 2. -/
def cachedSnapThree : Snapshot :=
  { expires := 100, version := 3, targets := [("targets.json", { version := 1 })] }

def mfCachedSnapThree : MFile Snapshot :=
  { size := 10, digests := [], canonical := "c3", signatures := sigsOne
    signed := cachedSnapThree }

def cacheSnapThree : Cache :=
  { cacheEmpty with snapshot := some mfCachedSnapThree }

/-! ## Helper lemmas -/

theorem signedCount_eq_length_filter (oracle : SigOracle) (signatures : Signatures)
    (data : String) (pubkeys : List (KeyID × PublicKey)) :
    signedCount oracle pubkeys signatures data =
      (pubkeys.filter fun kp =>
        (lookupSigs signatures kp.1).any fun s => oracle kp.2 s data).length := by
  induction pubkeys with
  | nil => simp [signedCount]
  | cons kp rest ih =>
      obtain ⟨kid, pk⟩ := kp
      by_cases h : ((lookupSigs signatures kid).any fun s => oracle pk s data) = true
      · simp [signedCount, List.filter_cons, h, ih]
        omega
      · simp [signedCount, List.filter_cons, h, ih]

theorem globMatchStar_eq_true_iff (m : List Char → Bool) (s : List Char) :
    globMatchStar m s = true ↔ ∃ s₁ s₂, s = s₁ ++ s₂ ∧ m s₂ = true := by
  induction s with
  | nil =>
      constructor
      · intro h
        exact ⟨[], [], rfl, h⟩
      · rintro ⟨s₁, s₂, he, hm⟩
        obtain ⟨rfl, rfl⟩ := List.append_eq_nil.mp he.symm
        exact hm
  | cons c s₁ ih =>
      constructor
      · intro h
        rcases Bool.or_eq_true_iff.mp h with h₁ | h₂
        · exact ⟨[], c :: s₁, rfl, h₁⟩
        · obtain ⟨t₁, t₂, rfl, hm⟩ := ih.mp h₂
          exact ⟨c :: t₁, t₂, rfl, hm⟩
      · rintro ⟨u₁, u₂, he, hm⟩
        cases u₁ with
        | nil =>
            simp at he
            subst he
            simp [globMatchStar, hm]
        | cons d t₁ =>
            obtain ⟨rfl, rfl⟩ : c = d ∧ s₁ = t₁ ++ u₂ := by
              simpa using he
            have : globMatchStar m (t₁ ++ u₂) = true := ih.mpr ⟨t₁, u₂, rfl, hm⟩
            simp [globMatchStar, this]

theorem popitem_eq_none_iff (l : List (String × JValue)) :
    popitem l = none ↔ l = [] := by
  induction l with
  | nil => simp [popitem]
  | cons a l ih =>
      simp only [popitem]
      cases h : popitem l with
      | none => simp
      | some p => simp

theorem popitem_eq_some (l : List (String × JValue)) (kv : String × JValue)
    (rest : List (String × JValue)) (h : popitem l = some (kv, rest)) :
    l = rest ++ [kv] := by
  induction l generalizing kv rest with
  | nil => simp [popitem] at h
  | cons a l ih =>
      rw [popitem] at h
      cases hl : popitem l with
      | none =>
          rw [hl] at h
          obtain rfl : l = [] := (popitem_eq_none_iff l).mp hl
          cases h
          rfl
      | some p =>
          obtain ⟨kv₂, r⟩ := p
          rw [hl] at h
          cases h
          simpa using ih _ _ hl

/-! ## Claim theorems -/

/-- C2: ThresholdOfPublicKeys.verified returns true iff at least
threshold-many distinct keyids of the key set have at least one listed
signature that the oracle verifies over the data; under the keyid
uniqueness of a Python dict (the Nodup hypothesis), the count of
successful rows equals the number of distinct successful keyids, so
several valid signatures under one keyid count only once. -/
theorem claim_C2_threshold_verified (t : ThresholdOfPublicKeys) (oracle : SigOracle)
    (signatures : Signatures) (data : String)
    (hnd : (t.pubkeys.map Prod.fst).Nodup) :
    t.verified oracle signatures data = true ↔
      t.threshold ≤
        ((t.pubkeys.filter fun kp =>
            (lookupSigs signatures kp.1).any fun s => oracle kp.2 s data).map
          Prod.fst).toFinset.card := by
  have hsub :
      List.Sublist
        ((t.pubkeys.filter fun kp =>
            (lookupSigs signatures kp.1).any fun s => oracle kp.2 s data).map
          Prod.fst)
        (t.pubkeys.map Prod.fst) :=
    (List.filter_sublist _).map _
  have hnd₂ := List.Nodup.sublist hsub hnd
  rw [List.toFinset_card_of_nodup hnd₂, List.length_map,
    ThresholdOfPublicKeys.verified, ← signedCount_eq_length_filter]
  exact decide_eq_true_iff

/-- Witness for C2: a 1-of-2 threshold where the first keyid lists one
bad and one good signature and the second keyid lists nothing. -/
theorem claim_C2_threshold_verified_witness :
    (thTwoKeys.pubkeys.map Prod.fst).Nodup ∧
      (thTwoKeys.verified oracleGood sigsGoodBad "data" = true ↔
        thTwoKeys.threshold ≤
          ((thTwoKeys.pubkeys.filter fun kp =>
              (lookupSigs sigsGoodBad kp.1).any fun s => oracleGood kp.2 s "data").map
            Prod.fst).toFinset.card) :=
  ⟨by decide, claim_C2_threshold_verified thTwoKeys oracleGood sigsGoodBad "data" (by decide)⟩

/-- C1 (counterexample): with a delegation carrying the single path
pattern pkgs/* and a requested target path pkgs/a/b.txt that the
top-level targets role does not list directly, the DFS does recurse into
the delegation and resolves the target through it, although under the
claimed semantics (in which `*` does not cross `/`, specGlobMatchNoSlash)
no pattern of the delegation matches the target path, so the claimed DFS
would not recurse and would find nothing. -/
theorem claim_C1_counterexample :
    dfsResultTarget
        (updateTargetsF envDeleg rootOne snapDeleg dfsFuel [] 1 "targets" thOne
          "pkgs/a/b.txt" cacheEmpty) = some tfDelegated ∧
      alookup topTargetsDeleg.targets "pkgs/a/b.txt" = none ∧
      specGlobMatchNoSlash "pkgs/*".data "pkgs/a/b.txt".data = false :=
  ⟨rfl, rfl, rfl⟩

theorem globMatches_cons_inv (pc : Char) (ps s : List Char)
    (h : GlobMatches (pc :: ps) s) :
    pc = '*' ∨ (pc = '?' ∧ ∃ c s₁, s = c :: s₁ ∧ GlobMatches ps s₁) ∨
      ∃ s₁, s = pc :: s₁ ∧ GlobMatches ps s₁ := by
  cases h with
  | star ps s₁ s₂ hm => exact Or.inl rfl
  | qmark ps c s hm => exact Or.inr (Or.inl ⟨rfl, c, s, rfl, hm⟩)
  | lit p ps s hne hm => exact Or.inr (Or.inr ⟨s, rfl, hm⟩)

/-- C1 (amended): the matcher the delegation DFS uses on each path
pattern (repository.py line 332, Python fnmatch) satisfies the
declarative glob semantics GlobMatches, whose star clause consumes an
arbitrary segment of the name, `/` included: in the DFS's pattern
semantics `*` DOES cross `/`. -/
theorem claim_C1_glob_star_crosses_slash (p s : List Char) :
    globMatch p s = true ↔ GlobMatches p s := by
  induction p generalizing s with
  | nil =>
      cases s with
      | nil => exact ⟨fun _ => .nil, fun _ => rfl⟩
      | cons c s₁ =>
          constructor
          · intro h
            simp [globMatch] at h
          · intro h
            cases h
  | cons pc ps ih =>
      by_cases hstar : pc = '*'
      · subst hstar
        rw [show globMatch ('*' :: ps) s = globMatchStar (globMatch ps) s from by
              simp [globMatch],
          globMatchStar_eq_true_iff]
        constructor
        · rintro ⟨s₁, s₂, rfl, hm⟩
          exact .star ps s₁ s₂ ((ih s₂).mp hm)
        · intro h
          cases h with
          | star ps s₁ s₂ hm => exact ⟨s₁, s₂, rfl, (ih s₂).mpr hm⟩
          | lit p ps s hne hm => exact absurd rfl hne
      · cases s with
        | nil =>
            constructor
            · intro h
              simp [globMatch, hstar] at h
            · intro h
              rcases globMatches_cons_inv pc ps [] h with hs | ⟨_, _, _, he, _⟩ | ⟨_, he, _⟩
              · exact absurd hs hstar
              · cases he
              · cases he
        | cons c s₁ =>
            rw [show globMatch (pc :: ps) (c :: s₁) =
                  ((pc = '?' || pc = c) && globMatch ps s₁) from by
                simp [globMatch, hstar]]
            constructor
            · intro h
              rw [Bool.and_eq_true, Bool.or_eq_true] at h
              obtain ⟨h₁, h₂⟩ := h
              rcases h₁ with hq | hc
              · have hq₂ : pc = '?' := by simpa using hq
                subst hq₂
                exact .qmark ps c s₁ ((ih s₁).mp h₂)
              · have hc₂ : pc = c := by simpa using hc
                subst hc₂
                exact .lit pc ps s₁ hstar ((ih s₁).mp h₂)
            · intro h
              rcases globMatches_cons_inv pc ps (c :: s₁) h with
                hs | ⟨hq, c₂, s₂, he, hm⟩ | ⟨s₂, he, hm⟩
              · exact absurd hs hstar
              · obtain ⟨rfl, rfl⟩ : c = c₂ ∧ s₁ = s₂ := by simpa using he
                simp [hq, (ih _).mpr hm]
              · obtain ⟨rfl, rfl⟩ : c = pc ∧ s₁ = s₂ := by simpa using he
                simp [(ih _).mpr hm]

/-- C9 (counterexample): the TimeSnap shape with a version and hashes but
no length, in the sorted insertion order the parser assumes, is rejected:
after popping "version" the parser pops "hashes" where it insists on the
key "length" and raises ValueError, although the claim says all four
shapes parse. -/
theorem claim_C9_counterexample :
    parseTimeSnap (.obj [("hashes", .obj [("sha256", .str "aa")]), ("version", .num 1)]) =
      .error .valueError :=
  rfl

/-- C9 (amended): of the four claimed TimeSnap shapes, three parse with
the absent fields set to none: a bare version, a version with a length,
and a version with a length and hashes; the fourth shape, a version with
hashes but no length, is rejected with ValueError. -/
theorem claim_C9_timesnap_shapes (v l : Int) (hkvs : List (String × JValue))
    (hs : Hashes) (hv : 0 < v) (hl : 0 < l) (hh : parseHashPairs hkvs = .ok hs) :
    parseTimeSnap (.obj [("version", .num v)]) = .ok { version := v.toNat } ∧
      parseTimeSnap (.obj [("length", .num l), ("version", .num v)]) =
        .ok { version := v.toNat, length := some l.toNat } ∧
      parseTimeSnap (.obj [("hashes", .obj hkvs), ("length", .num l),
          ("version", .num v)]) =
        .ok { version := v.toNat, hashes := some hs, length := some l.toNat } ∧
      parseTimeSnap (.obj [("hashes", .obj hkvs), ("version", .num v)]) =
        .error .valueError := by
  have hv₂ : ¬ v ≤ 0 := by omega
  have hl₂ : ¬ l ≤ 0 := by omega
  refine ⟨?_, ?_, ?_, ?_⟩ <;>
    simp [parseTimeSnap, popitem, parsePositive, parseHashes, hv₂, hl₂, hh]

/-- Witness for C9 at version 2, length 9, and a one-entry hash dict. -/
theorem claim_C9_timesnap_shapes_witness :
    (0 : Int) < 2 ∧ (0 : Int) < 9 ∧
      parseHashPairs [("sha256", JValue.str "dd")] = .ok [("sha256", "dd")] ∧
      parseTimeSnap (.obj [("version", .num 2)]) = .ok { version := 2 } ∧
      parseTimeSnap (.obj [("hashes", .obj [("sha256", .str "dd")]),
          ("version", .num 2)]) = .error .valueError := by
  have h := claim_C9_timesnap_shapes 2 9 [("sha256", .str "dd")] [("sha256", "dd")]
    (by decide) (by decide) rfl
  exact ⟨by decide, by decide, rfl, h.1, h.2.2.2⟩

/-- C8 (counterexample): a target-file object containing the unknown key
"aaa" (not one of length, hashes, custom) parses successfully, with the
unknown key's dict value silently accepted as the custom field, because
target_file never checks the popped custom key's name. -/
theorem claim_C8_counterexample :
    parseTargetFile
        (.obj [("aaa", .obj []), ("hashes", .obj [("sha256", .str "xx")]),
            ("length", .num 3)]) =
      .ok { hashes := [("sha256", "xx")], length := 3, custom := some (.obj []) } ∧
      ¬ ("aaa" = "length" ∨ "aaa" = "hashes" ∨ "aaa" = "custom") :=
  ⟨rfl, by decide⟩

/-- C8 (amended): unknown keys are rejected except in the custom slot of
a target-file object: there, an extra field with ANY key name is accepted
as the custom field provided its value is a dict (first conjunct), while
a TimeSnap object is accepted only with the exact sorted key shapes
[version], [length, version], or [hashes, length, version] (second
conjunct). -/
theorem claim_C8_unknown_keys (k : String) (d hkvs : List (String × JValue))
    (hs : Hashes) (l : Int) (hl : 0 < l) (hh : parseHashPairs hkvs = .ok hs) :
    parseTargetFile (.obj [(k, .obj d), ("hashes", .obj hkvs), ("length", .num l)]) =
        .ok { hashes := hs, length := l.toNat, custom := some (.obj d) } ∧
      ∀ (kvs : List (String × JValue)) (t : TimeSnap),
        parseTimeSnap (.obj kvs) = .ok t →
          kvs.map Prod.fst = ["version"] ∨ kvs.map Prod.fst = ["length", "version"] ∨
            kvs.map Prod.fst = ["hashes", "length", "version"] := by
  constructor
  · have hl₂ : ¬ l ≤ 0 := by omega
    simp [parseTargetFile, popitem, parsePositive, parseHashes, hl₂, hh]
  · intro kvs t h
    rw [parseTimeSnap] at h
    cases h₁ : popitem kvs with
    | none => simp [h₁] at h
    | some p =>
        obtain ⟨⟨k₁, v₁⟩, rest⟩ := p
        simp only [h₁] at h
        have hkvs₁ := popitem_eq_some kvs _ _ h₁
        by_cases hk₁ : k₁ = "version"
        case neg => simp [hk₁] at h
        case pos =>
          subst hk₁
          rw [if_neg (by simp)] at h
          cases hv₁ : parsePositive v₁ with
          | error e =>
              simp only [hv₁] at h
              exact Except.noConfusion h
          | ok version =>
              simp only [hv₁] at h
              cases h₂ : popitem rest with
              | none =>
                  obtain rfl : rest = [] := (popitem_eq_none_iff rest).mp h₂
                  left
                  simp [hkvs₁]
              | some p₂ =>
                  obtain ⟨⟨k₂, v₂⟩, rest₂⟩ := p₂
                  simp only [h₂] at h
                  have hrest := popitem_eq_some rest _ _ h₂
                  by_cases hk₂ : k₂ = "length"
                  case neg => simp [hk₂] at h
                  case pos =>
                    subst hk₂
                    rw [if_neg (by simp)] at h
                    cases hv₂ : parsePositive v₂ with
                    | error e =>
                        simp only [hv₂] at h
                        exact Except.noConfusion h
                    | ok length =>
                        simp only [hv₂] at h
                        cases h₃ : popitem rest₂ with
                        | none =>
                            obtain rfl : rest₂ = [] := (popitem_eq_none_iff rest₂).mp h₃
                            right; left
                            simp [hkvs₁, hrest]
                        | some p₃ =>
                            obtain ⟨⟨k₃, v₃⟩, rest₃⟩ := p₃
                            simp only [h₃] at h
                            have hrest₂ := popitem_eq_some rest₂ _ _ h₃
                            by_cases hk₃ : k₃ = "hashes"
                            case neg => simp [hk₃] at h
                            case pos =>
                              subst hk₃
                              rw [if_neg (by simp)] at h
                              cases hv₃ : parseHashes v₃ with
                              | error e =>
                                  simp only [hv₃] at h
                                  exact Except.noConfusion h
                              | ok hs₃ =>
                                  simp only [hv₃] at h
                                  by_cases hemp : rest₃.isEmpty
                                  case pos =>
                                    obtain rfl : rest₃ = [] := by
                                      cases rest₃ with
                                      | nil => rfl
                                      | cons a r => simp [List.isEmpty] at hemp
                                    right; right
                                    simp [hkvs₁, hrest, hrest₂]
                                  case neg => simp [hemp] at h

/-- Witness for C8: the unknown key "zzz" with an empty dict value in the
custom slot. -/
theorem claim_C8_unknown_keys_witness :
    (0 : Int) < 7 ∧ parseHashPairs [("sha256", JValue.str "hh")] = .ok [("sha256", "hh")] ∧
      parseTargetFile (.obj [("zzz", .obj []), ("hashes", .obj [("sha256", .str "hh")]),
          ("length", .num 7)]) =
        .ok { hashes := [("sha256", "hh")], length := 7, custom := some (.obj []) } :=
  ⟨by decide, rfl, (claim_C8_unknown_keys "zzz" [] [("sha256", .str "hh")]
      [("sha256", "hh")] 7 (by decide) rfl).1⟩

theorem runChunks_append (threshold maxLength : Nat) (pre rest : List Chunk)
    (p w : Nat) :
    runChunks threshold maxLength p w (pre ++ rest) =
      match runChunks threshold maxLength p w pre with
      | .ok (p₁, w₁) => runChunks threshold maxLength p₁ w₁ rest
      | .error e => .error e := by
  induction pre generalizing p w with
  | nil => simp [runChunks]
  | cons ch pre ih =>
      simp only [List.cons_append, runChunks]
      cases chunkStep threshold maxLength p w ch with
      | error e => rfl
      | ok pw =>
          obtain ⟨p₁, w₁⟩ := pw
          simp [ih]

/-- C7: the downloader fails with EndlessDataAttack before reading any of
the body (for every possible body) when the advertised Content-Length
exceeds the bound, and, during streaming, fails with EndlessDataAttack at
the first chunk whose cumulative received byte count exceeds the bound,
whatever comes after it. -/
theorem claim_C7_download_endless_data (threshold maxLength : Nat) :
    (∀ (L : Nat) (chunks : List Chunk), maxLength < L →
        download threshold maxLength
            { status := 200, contentLength := some L, chunks := chunks } =
          .error .endlessDataAttack) ∧
      (∀ (pre : List Chunk) (c : Chunk) (post : List Chunk) (p w : Nat),
        runChunks threshold maxLength 0 0 pre = .ok (p, w) →
        maxLength < c.numBytesDownloaded →
        runChunks threshold maxLength 0 0 (pre ++ c :: post) =
          .error .endlessDataAttack) := by
  constructor
  · intro L chunks hL
    simp [download, hL]
  · intro pre c post p w hpre hc
    rw [runChunks_append, hpre]
    simp [runChunks, chunkStep, hc]

/-- Witness for C7: a 100-byte bound, an advertised Content-Length of
101, and a stream whose second chunk reaches 101 received bytes. -/
theorem claim_C7_download_endless_data_witness :
    100 < 101 ∧
      download 8192 100 { status := 200, contentLength := some 101, chunks := [] } =
        .error .endlessDataAttack ∧
      runChunks 8192 100 0 0 [{ numBytesDownloaded := 50, data := 50, speed := 9000 }] =
        .ok (50, 50) ∧
      runChunks 8192 100 0 0
          ([{ numBytesDownloaded := 50, data := 50, speed := 9000 }] ++
            { numBytesDownloaded := 101, data := 1, speed := 9000 } :: []) =
        .error .endlessDataAttack := by
  have h := claim_C7_download_endless_data 8192 100
  exact ⟨by decide, h.1 101 [] (by decide), rfl,
    h.2 [{ numBytesDownloaded := 50, data := 50, speed := 9000 }]
      { numBytesDownloaded := 101, data := 1, speed := 9000 } [] 50 50 rfl (by decide)⟩

/-- C3: in a root-rotation iteration whose download succeeded within the
length bound, the new root file is accepted only if its signatures
satisfy both the currently trusted root's root-role threshold and the
root-role threshold declared inside the new file itself, both verified
over the same canonical bytes f.canonical; and if either of the two
independent checks fails, the iteration (and with it the whole rotation
loop, hence the refresh) raises ArbitrarySoftwareAttack, so the loop
never reaches the point where the trusted root is advanced. -/
theorem claim_C3_cross_signed_root (env : Env) (curr : Root) (n : Nat) (f : MFile Root)
    (hdl : env.remoteRoot (n + 1) = some f)
    (hlen : f.size ≤ Config.MAX_ROOT_LENGTH) :
    (updateRootStep env curr (n + 1) = .ok (some f) →
        curr.root.verified env.sigOk f.signatures f.canonical = true ∧
          f.signed.root.verified env.sigOk f.signatures f.canonical = true) ∧
      ((curr.root.verified env.sigOk f.signatures f.canonical = false ∨
          f.signed.root.verified env.sigOk f.signatures f.canonical = false) →
        updateRootStep env curr (n + 1) = .error .arbitrarySoftwareAttack ∧
          ∀ (fuel : Nat) (tmp : Option (MFile Root)),
            updateRootLoop env (fuel + 1) curr n tmp = .error .arbitrarySoftwareAttack) := by
  have hlen₂ : ¬ Config.MAX_ROOT_LENGTH < f.size := by omega
  have hlen₃ : checkLengthOk f.size Config.MAX_ROOT_LENGTH = true := by
    simp [checkLengthOk, hlen]
  constructor
  · intro hok
    simp only [updateRootStep, hdl] at hok
    by_cases h₁ : curr.root.verified env.sigOk f.signatures f.canonical = true
    · by_cases h₂ : f.signed.root.verified env.sigOk f.signatures f.canonical = true
      · exact ⟨h₁, h₂⟩
      · simp [hlen₂, hlen₃, h₁, h₂] at hok
    · simp [hlen₂, hlen₃, h₁] at hok
  · intro hbad
    have hstep : updateRootStep env curr (n + 1) = .error .arbitrarySoftwareAttack := by
      simp only [updateRootStep, hdl]
      rcases hbad with h₁ | h₂
      · simp [hlen₂, hlen₃, h₁]
      · by_cases h₁ : curr.root.verified env.sigOk f.signatures f.canonical = true
        · simp [hlen₂, hlen₃, h₁, h₂]
        · simp [hlen₂, hlen₃, h₁]
    refine ⟨hstep, fun fuel tmp => ?_⟩
    simp only [updateRootLoop, hstep]

/-- Witness for C3: a served root v2 whose signatures the oracle rejects
makes the rotation step and loop fail with ArbitrarySoftwareAttack. -/
theorem claim_C3_cross_signed_root_witness :
    envRootReject.remoteRoot (1 + 1) = some mfRootTwo ∧
      mfRootTwo.size ≤ Config.MAX_ROOT_LENGTH ∧
      updateRootStep envRootReject rootOne (1 + 1) = .error .arbitrarySoftwareAttack ∧
      updateRootLoop envRootReject (31 + 1) rootOne 1 none =
        .error .arbitrarySoftwareAttack := by
  have h := (claim_C3_cross_signed_root envRootReject rootOne 1 mfRootTwo rfl
    (by decide)).2 (Or.inl rfl)
  exact ⟨rfl, by decide, h.1, h.2 31 none⟩

/-- C4 (counterexample): with a timestamp whose snapshot reference
declares a length of MAX_SNAPSHOT_LENGTH + 1000, a freshly served
snapshot file of MAX_SNAPSHOT_LENGTH + 500 bytes — larger than the
global ceiling — passes the download bound and the on-disk length check
and the whole update succeeds, instead of failing with EndlessData as
the claimed min(snap_ref.length, MAX_SNAPSHOT_LENGTH) bound would
require. -/
theorem claim_C4_counterexample :
    (updateSnapshot envSnapBig cacheEmpty rootOne tsBigLen).isOk = true ∧
      Config.MAX_SNAPSHOT_LENGTH < mfSnapBig.size ∧
      tsBigLen.snapshot.length = some (Config.MAX_SNAPSHOT_LENGTH + 1000) :=
  ⟨rfl, by decide, rfl⟩

/-- C4 (amended): for a fresh fetch, both the snapshot and targets
updates bound the download and the on-disk length check by the
reference's declared length when one is declared and by the global
ceiling (MAX_SNAPSHOT_LENGTH respectively MAX_TARGETS_LENGTH) only when
none is declared — the `length or MAX` idiom, with no min applied — and
they fail with EndlessDataAttack exactly when the fetched file exceeds
that bound. -/
theorem claim_C4_length_bound :
    (∀ (env : Env) (c : Cache) (root : Root) (ts : Timestamp) (f : MFile Snapshot),
        c.snapshot = none →
        env.remoteSnapshot ts.snapshot.version = some f →
        (updateSnapshot env c root ts = .error .endlessDataAttack ↔
          metadataLengthBound ts.snapshot.length Config.MAX_SNAPSHOT_LENGTH < f.size)) ∧
      (∀ (env : Env) (root : Root) (snap : Snapshot) (fuel : Nat)
          (visited : List String) (counter : Nat) (rolename : String)
          (role : ThresholdOfPublicKeys) (relpath : String) (c : Cache)
          (timesnap : TimeSnap) (f : MFile Targets),
        visited.contains rolename = false →
        counter ≤ Config.MAX_PREORDER_DFS_VISITS →
        alookup snap.targets (rolename ++ ".json") = some timesnap →
        alookup c.targetsMeta rolename = none →
        env.remoteTargets rolename timesnap.version = some f →
        f.signed.delegations = [] →
        (updateTargetsF env root snap (fuel + 1) visited counter rolename role relpath c =
            .error .endlessDataAttack ↔
          metadataLengthBound timesnap.length Config.MAX_TARGETS_LENGTH < f.size)) := by
  constructor
  · intro env c root ts f hc hdl
    by_cases hsz :
      metadataLengthBound ts.snapshot.length Config.MAX_SNAPSHOT_LENGTH < f.size
    · simp [updateSnapshot, hc, hdl, hsz]
    · have hlen :
          checkLengthOk f.size
            (metadataLengthBound ts.snapshot.length Config.MAX_SNAPSHOT_LENGTH) = true := by
        simp [checkLengthOk]
        omega
      simp only [updateSnapshot, hc, hdl, if_neg hsz, hlen]
      refine ⟨fun h => absurd ?_ hsz, fun h => absurd h hsz⟩
      by_cases h₂ : checkHashesOk f.digests ts.snapshot.hashes = true
      · by_cases h₃ : root.snapshot.verified env.sigOk f.signatures f.canonical = true
        · by_cases h₄ : f.signed.version = ts.snapshot.version
          · by_cases h₅ : f.signed.expires ≤ env.now
            · simp [hlen, h₂, h₃, h₄, h₅] at h
            · simp [hlen, h₂, h₃, h₄, h₅] at h
          · simp [hlen, h₂, h₃, h₄] at h
        · simp [hlen, h₂, h₃] at h
      · simp [hlen, h₂] at h
  · intro env root snap fuel visited counter rolename role relpath c timesnap f
      hvis hcnt hsnap hcache hdl hdeleg
    have hguard : (visited.contains rolename ||
        decide (Config.MAX_PREORDER_DFS_VISITS < counter)) = false := by
      rw [hvis, Bool.false_or, decide_eq_false_iff_not]
      exact Nat.not_lt.mpr hcnt
    have hnm : rolename ∉ visited := by simpa using hvis
    by_cases hsz : metadataLengthBound timesnap.length Config.MAX_TARGETS_LENGTH < f.size
    · simp [updateTargetsF, hguard, hsnap, hcache, hdl, hsz]
      exact ⟨hnm, hcnt⟩
    · have hlen :
          checkLengthOk f.size
            (metadataLengthBound timesnap.length Config.MAX_TARGETS_LENGTH) = true := by
        simp [checkLengthOk]
        omega
      simp only [updateTargetsF, hguard, hsnap, hcache, hdl, if_neg hsz, hlen]
      refine ⟨fun h => absurd ?_ hsz, fun h => absurd h hsz⟩
      by_cases h₂ : checkHashesOk f.digests timesnap.hashes = true
      · by_cases h₃ : role.verified env.sigOk f.signatures f.canonical = true
        · by_cases h₄ : f.signed.version = timesnap.version
          · by_cases h₅ : f.signed.expires ≤ env.now
            · simp [hlen, h₂, h₃, h₄, h₅] at h
            · cases halook : alookup f.signed.targets relpath with
              | some tf =>
                  simp [hlen, h₂, h₃, h₄, h₅, preorderDfsGo, halook] at h
              | none =>
                  simp [hlen, h₂, h₃, h₄, h₅, preorderDfsGo, halook, hdeleg,
                    dfsDelegationsGo] at h
          · simp [hlen, h₂, h₃, h₄] at h
        · simp [hlen, h₂, h₃] at h
      · simp [hlen, h₂] at h

/-- Witness for C4: the oversized-snapshot scenario (where the iff's
right side is false and indeed no EndlessData is raised) and the
delegation scenario's role x fetch with no declared length (bound
MAX_TARGETS_LENGTH). -/
theorem claim_C4_length_bound_witness :
    cacheEmpty.snapshot = none ∧
      envSnapBig.remoteSnapshot tsBigLen.snapshot.version = some mfSnapBig ∧
      (updateSnapshot envSnapBig cacheEmpty rootOne tsBigLen =
          .error .endlessDataAttack ↔
        metadataLengthBound tsBigLen.snapshot.length Config.MAX_SNAPSHOT_LENGTH <
          mfSnapBig.size) ∧
      (updateTargetsF envDeleg rootOne snapDeleg (0 + 1) [] 1 "x" thOne
          "pkgs/a/b.txt" cacheEmpty =
          .error .endlessDataAttack ↔
        metadataLengthBound (TimeSnap.mk 1 none none).length Config.MAX_TARGETS_LENGTH <
          mfSubTargets.size) := by
  have h := claim_C4_length_bound
  exact ⟨rfl, rfl,
    h.1 envSnapBig cacheEmpty rootOne tsBigLen mfSnapBig rfl rfl,
    h.2 envDeleg rootOne snapDeleg 0 [] 1 "x" thOne "pkgs/a/b.txt" cacheEmpty
      (TimeSnap.mk 1 none none) mfSubTargets rfl (by decide) rfl rfl rfl rfl⟩

/-- C6: when a previously cached snapshot exists and the snapshot update
reaches the rollback scan (the fresh download succeeded within the bound
and the hash, signature and version checks passed), a filename of the
previous snapshot that is missing from the new snapshot or whose TimeSnap
version decreased makes the update fail with RollbackAttack; since
persistence and the trusted-state assignment only happen in the ok branch
of updateSnapshot, the new snapshot is then neither persisted nor stored
as trusted state. -/
theorem claim_C6_snapshot_rollback (env : Env) (c : Cache) (root : Root)
    (ts : Timestamp) (pf f : MFile Snapshot)
    (hprev : c.snapshot = some pf)
    (hobs : pf.signed.version < ts.snapshot.version)
    (hdl : env.remoteSnapshot ts.snapshot.version = some f)
    (hlen : f.size ≤ metadataLengthBound ts.snapshot.length Config.MAX_SNAPSHOT_LENGTH)
    (hhash : checkHashesOk f.digests ts.snapshot.hashes = true)
    (hsig : root.snapshot.verified env.sigOk f.signatures f.canonical = true)
    (hver : f.signed.version = ts.snapshot.version)
    (hroll : snapshotRollbackOffender pf.signed.targets f.signed.targets = true) :
    updateSnapshot env c root ts = .error .rollbackAttack := by
  have hsz :
      ¬ metadataLengthBound ts.snapshot.length Config.MAX_SNAPSHOT_LENGTH < f.size := by
    omega
  have hlen₂ :
      checkLengthOk f.size
        (metadataLengthBound ts.snapshot.length Config.MAX_SNAPSHOT_LENGTH) = true := by
    simp [checkLengthOk, hlen]
  simp [updateSnapshot, hprev, hobs, hdl, hsz, hlen₂, hhash, hsig, hver, hroll]

/-- Witness for C6: the cached snapshot v1 lists a.json, the served
snapshot v2 does not. -/
theorem claim_C6_snapshot_rollback_witness :
    updateSnapshot envRoll cacheRoll rootOne tsTwo = .error .rollbackAttack :=
  claim_C6_snapshot_rollback envRoll cacheRoll rootOne tsTwo mfPrevSnapRoll
    mfNewSnapRoll rfl (by decide) rfl (by decide) rfl rfl rfl rfl

/-- C10: when the previously cached snapshot parses with a version
strictly greater than the trusted timestamp's snapshot reference (and the
reference's hashes, when present, match the cached file), the update
reuses the cached file and always fails, so no trusted snapshot state is
established (first conjunct); when the cached file is moreover within the
length bound and its signatures verify, the failure is precisely
MixAndMatchAttack at the version-equality check (second conjunct). -/
theorem claim_C10_cached_newer_snapshot (env : Env) (c : Cache) (root : Root)
    (ts : Timestamp) (pf : MFile Snapshot)
    (hprev : c.snapshot = some pf)
    (hnewer : ts.snapshot.version < pf.signed.version)
    (hhash : checkHashesOk pf.digests ts.snapshot.hashes = true) :
    (∃ e, updateSnapshot env c root ts = .error e) ∧
      (pf.size ≤ metadataLengthBound ts.snapshot.length Config.MAX_SNAPSHOT_LENGTH →
        root.snapshot.verified env.sigOk pf.signatures pf.canonical = true →
        updateSnapshot env c root ts = .error .mixAndMatchAttack) := by
  have hobs : ¬ pf.signed.version < ts.snapshot.version := by omega
  have hver : pf.signed.version ≠ ts.snapshot.version := by omega
  constructor
  · by_cases hl :
      checkLengthOk pf.size
        (metadataLengthBound ts.snapshot.length Config.MAX_SNAPSHOT_LENGTH) = true
    · by_cases hs : root.snapshot.verified env.sigOk pf.signatures pf.canonical = true
      · exact ⟨.mixAndMatchAttack,
          by simp [updateSnapshot, hprev, hobs, hl, hhash, hs, hver]⟩
      · exact ⟨.arbitrarySoftwareAttack,
          by simp [updateSnapshot, hprev, hobs, hl, hhash, hs]⟩
    · exact ⟨.endlessDataAttack, by simp [updateSnapshot, hprev, hobs, hl]⟩
  · intro hlen hsig
    have hl :
        checkLengthOk pf.size
          (metadataLengthBound ts.snapshot.length Config.MAX_SNAPSHOT_LENGTH) = true := by
      simp [checkLengthOk, hlen]
    simp [updateSnapshot, hprev, hobs, hl, hhash, hsig, hver]

/-- Witness for C10: a cached snapshot v3 against a timestamp advertising
snapshot v2. -/
theorem claim_C10_cached_newer_snapshot_witness :
    updateSnapshot envBase cacheSnapThree rootOne tsTwo = .error .mixAndMatchAttack :=
  (claim_C10_cached_newer_snapshot envBase cacheSnapThree rootOne tsTwo
      mfCachedSnapThree rfl (by decide) rfl).2 (by decide) rfl

theorem dfsPathsGo_congr (u₁ u₂ : UpdateTargetsFn)
    (hu : ∀ v k rn ro rp cc, u₁ v k rn ro rp cc = u₂ v k rn ro rp cc) :
    ∀ (rolename : String) (d : Delegation) (relpath : String) (paths : List String)
      (visited : List String) (counter : Nat) (c : Cache),
      dfsPathsGo u₁ rolename d relpath paths visited counter c =
        dfsPathsGo u₂ rolename d relpath paths visited counter c := by
  intro rolename d relpath paths
  induction paths with
  | nil =>
      intro visited counter c
      rfl
  | cons path more ih =>
      intro visited counter c
      simp only [dfsPathsGo]
      cases hg : globMatch path.data relpath.data with
      | false => simp [hg, ih]
      | true =>
          simp only [hg, if_true]
          rw [hu]
          cases u₂ visited (counter + 1) rolename d.role relpath c with
          | error e => rfl
          | ok r =>
              obtain ⟨tf, visited₁, c₁⟩ := r
              by_cases ht : (tf.isSome || d.terminating) = true
              · simp [ht]
              · simp [ht, ih]

theorem dfsDelegationsGo_congr (u₁ u₂ : UpdateTargetsFn)
    (hu : ∀ v k rn ro rp cc, u₁ v k rn ro rp cc = u₂ v k rn ro rp cc) :
    ∀ (relpath : String) (dl : List (String × Delegation)) (visited : List String)
      (counter : Nat) (c : Cache),
      dfsDelegationsGo u₁ relpath dl visited counter c =
        dfsDelegationsGo u₂ relpath dl visited counter c := by
  intro relpath dl
  induction dl with
  | nil =>
      intro visited counter c
      rfl
  | cons rd rest ih =>
      intro visited counter c
      obtain ⟨rolename, d⟩ := rd
      simp only [dfsDelegationsGo]
      by_cases hv : visited.contains rolename = true
      · rw [if_pos hv, if_pos hv]
        exact ih visited counter c
      · simp only [hv, if_false]
        rw [dfsPathsGo_congr u₁ u₂ hu]
        cases dfsPathsGo u₂ rolename d relpath d.paths visited counter c with
        | error e => rfl
        | ok step =>
            cases step with
            | done tf visited₁ c₁ => rfl
            | next visited₁ c₁ => exact ih visited₁ counter c₁

theorem preorderDfsGo_congr (u₁ u₂ : UpdateTargetsFn)
    (hu : ∀ v k rn ro rp cc, u₁ v k rn ro rp cc = u₂ v k rn ro rp cc) :
    ∀ (tgts : Targets) (relpath : String) (visited : List String) (counter : Nat)
      (c : Cache),
      preorderDfsGo u₁ tgts relpath visited counter c =
        preorderDfsGo u₂ tgts relpath visited counter c := by
  intro tgts relpath visited counter c
  simp only [preorderDfsGo]
  cases alookup tgts.targets relpath with
  | some tf => rfl
  | none => rw [dfsDelegationsGo_congr u₁ u₂ hu]

/-- The delegated-targets update depends on the remote repository only
through its targets metadata (and the oracle and clock), never through
the remote root, timestamp, or snapshot. -/
theorem updateTargetsF_env_ext (env₁ env₂ : Env) (root : Root) (snap : Snapshot)
    (hsig : env₁.sigOk = env₂.sigOk) (hnow : env₁.now = env₂.now)
    (htg : env₁.remoteTargets = env₂.remoteTargets) :
    ∀ (fuel : Nat) (visited : List String) (counter : Nat) (rolename : String)
      (role : ThresholdOfPublicKeys) (relpath : String) (c : Cache),
      updateTargetsF env₁ root snap fuel visited counter rolename role relpath c =
        updateTargetsF env₂ root snap fuel visited counter rolename role relpath c := by
  intro fuel
  induction fuel with
  | zero =>
      intro visited counter rolename role relpath c
      rfl
  | succ fuel ih =>
      intro visited counter rolename role relpath c
      have hcb :=
        preorderDfsGo_congr (updateTargetsF env₁ root snap fuel)
          (updateTargetsF env₂ root snap fuel)
          (fun v k rn ro rp cc => ih v k rn ro rp cc)
      simp only [updateTargetsF, hsig, hnow, htg, hcb]

theorem getTargetLoop_congr (env₁ env₂ : Env)
    (htf : env₁.remoteTarget = env₂.remoteTarget) (tfLength : Nat) (relpath : String) :
    ∀ hl, getTargetLoop env₁ tfLength relpath hl = getTargetLoop env₂ tfLength relpath hl := by
  intro hl
  induction hl with
  | nil => rfl
  | cons p rest ih =>
      obtain ⟨a, hx⟩ := p
      simp only [getTargetLoop, htf]
      cases env₂.remoteTarget relpath hx with
      | none => exact ih
      | some df => rfl

/-- C5 (counterexample): a session state reachable by a successful
construction-time refresh, and a remote state against which get succeeds,
while a get that first re-ran the refresh pipeline (specGetWithRefresh,
modelled from the spec's words) fails because the remote timestamp is
gone: the second call therefore cannot be re-running refresh from the
beginning. -/
theorem claim_C5_counterexample :
    (get envSecondGet cacheSecondGet trustedSecondGet "pkgs/a/b.txt").isOk = true ∧
      specGetWithRefresh envSecondGet cacheSecondGet "pkgs/a/b.txt" =
        .error .targetNotFound :=
  ⟨rfl, rfl⟩

/-- C5 (amended): a second get call in the same session is well-defined
but does NOT re-run the refresh pipeline: it re-runs only the
delegated-targets update and the target fetch against the trusted state
established at construction, so its outcome is unchanged under arbitrary
changes to the remote root, timestamp, and snapshot. -/
theorem claim_C5_second_get_no_refresh (env₁ env₂ : Env) (c : Cache) (t : Trusted)
    (relpath : String)
    (hsig : env₁.sigOk = env₂.sigOk) (hnow : env₁.now = env₂.now)
    (htg : env₁.remoteTargets = env₂.remoteTargets)
    (htf : env₁.remoteTarget = env₂.remoteTarget) :
    get env₁ c t relpath = get env₂ c t relpath := by
  simp only [get, updateTargetsF_env_ext env₁ env₂ t.root t.snapshot hsig hnow htg,
    getTargetLoop_congr env₁ env₂ htf]

/-- Witness for C5: the same session state queried against two remote
states that differ in the root, timestamp and snapshot they serve. -/
theorem claim_C5_second_get_no_refresh_witness :
    envSecondGet.sigOk = envSecondGetB.sigOk ∧
      envSecondGet.now = envSecondGetB.now ∧
      envSecondGet.remoteTargets = envSecondGetB.remoteTargets ∧
      envSecondGet.remoteTarget = envSecondGetB.remoteTarget ∧
      get envSecondGet cacheSecondGet trustedSecondGet "pkgs/a/b.txt" =
        get envSecondGetB cacheSecondGet trustedSecondGet "pkgs/a/b.txt" :=
  ⟨rfl, rfl, rfl, rfl,
    claim_C5_second_get_no_refresh envSecondGet envSecondGetB cacheSecondGet
      trustedSecondGet "pkgs/a/b.txt" rfl rfl rfl rfl⟩

end TufOnAPlane
